import Mathlib

/-!
Verification of the text-to-SQL orchestration pipeline.

This file shallowly embeds the query orchestrator
`TextToSQLClient.process_query_for_selected_table` (and its helper
methods `rephrase_query`, `generate_sql`, `retry_failed_query`,
`execute_query`, `summarize_results`) from `api/clickhouse_client.py`,
the table-selection endpoint `select_table` from `api/main.py`, and the
`get_table_schema` tool handler of `api/clickhouse_server.py`.

The external services (the OpenAI chat completions behind the reasoning
calls and the ClickHouse database behind the MCP server) are modelled as
explicit behaviours: each call site becomes a field of `Gateways` (resp.
a `describe` function for the database's `DESCRIBE TABLE`).  A call that
raises a Python exception is modelled as `Except.error` carrying the
exception text `str(e)`; a call that returns normally is `Except.ok`.
The orchestrator also returns the ordered list of external calls it
made (`Event`), so that theorems can speak about how many execution or
repair calls one invocation issues.
-/

/-- The structured verdict `json.loads` produces from the classification
response in `rephrase_query`: fields `query_type` and `queries`. -/
structure Verdict where
  query_type : String
  queries : List String
  deriving Repr, DecidableEq

deriving instance DecidableEq for Except

/-- One external call made during an invocation, in order.  An
execution call records the gateway's response (`Except.error` when the
underlying call raised). -/
inductive Event where
  | classifyCall
  | generateCall
  | execCall (response : Except String String)
  | repairCall
  | summarizeCall
  deriving Repr, DecidableEq

/-- A Python dict returned by `process_query_for_selected_table`, with
one optional field per key that some return site sets (`none` models an
absent key). -/
structure Envelope where
  user_query : Option String := none
  rephrased_query : Option String := none
  selected_table : Option String := none
  sql_query : Option String := none
  original_sql_query : Option String := none
  error_messages : Option (List String) := none
  final_sql_query : Option String := none
  result : Option String := none
  summary : Option String := none
  error : Option String := none
  deriving Repr, DecidableEq

/-- The value one invocation returns: a dict envelope, or Python `None`
(the fall-through when the `while` loop finishes without returning). -/
inductive PyResult where
  | env (e : Envelope)
  | pyNone
  deriving Repr, DecidableEq

/-- The client-session attributes `selected_table` / `table_schema`.
They are set outside the constructor in the source, so `none` models a
missing attribute (`hasattr` false). -/
structure Session where
  selected_table : Option String := none
  table_schema : Option String := none
  deriving Repr, DecidableEq

/-- Behaviour of the external services over one invocation, one field
per call site of the orchestrator:
`classify` is the chat completion + `json.loads` in `rephrase_query`;
`generate` the completion in `generate_sql` (arguments: rephrased
query, table name, table schema); `repair` the completion in
`retry_failed_query` (arguments: error message, current query, table
name, table schema, rephrased query); `execute` the MCP round trip in
`execute_query` (arguments: sql query, table name); `summarize` the
completion in `summarize_results` (arguments: user query, sql output). -/
structure Gateways where
  classify : String → Except String Verdict
  generate : String → String → String → Except String String
  repair : String → String → String → String → String → Except String String
  execute : String → String → Except String String
  summarize : String → String → Except String String

/-! ### Python string helpers

The source uses `in` (substring test), `str.split(sep)[1]` and
`str.strip()`.  We embed them as structurally recursive functions on
character lists so that all theorems evaluate by kernel reduction. -/

/-- Substring test on character lists: Python `pat in s`. -/
def charsContain (pat : List Char) : List Char → Bool
  | [] => pat.isEmpty
  | c :: cs => pat.isPrefixOf (c :: cs) || charsContain pat cs

/-- Python substring test `pat in s`. -/
def strContains (s pat : String) : Bool :=
  charsContain pat.toList s.toList

/-- The characters after the first occurrence of `pat` (empty when
`pat` does not occur). -/
def afterFirst (pat : List Char) : List Char → List Char
  | [] => []
  | c :: cs =>
    if pat.isPrefixOf (c :: cs) then (c :: cs).drop pat.length
    else afterFirst pat cs

/-- The characters before the first occurrence of `pat` (the whole list
when `pat` does not occur). -/
def beforeFirst (pat : List Char) : List Char → List Char
  | [] => []
  | c :: cs =>
    if pat.isPrefixOf (c :: cs) then []
    else c :: beforeFirst pat cs

/-- Python `s.split(pat)[1]`: the text between the first occurrence of
`pat` and the following occurrence (or the end of `s`).  The source
only evaluates this in a branch where `pat` occurs in `s`. -/
def pySplitSecond (s pat : String) : String :=
  String.mk (beforeFirst pat.toList (afterFirst pat.toList s.toList))

/-- Python `s.strip()`: drop leading and trailing whitespace. -/
def pyStrip (s : String) : String :=
  String.mk
    (((s.toList.dropWhile Char.isWhitespace).reverse.dropWhile
      Char.isWhitespace).reverse)

/-! ### The orchestrator (`api/clickhouse_client.py`) -/

/-- The fixed sentinel phrase whose occurrence in an execution response
marks a failed attempt (`"Error executing custom query:" in result`). -/
def sentinel : String := "Error executing custom query:"

/-- `TextToSQLClient.rephrase_query`: classify the user query; raise
`ValueError` when `query_type == "wrong"`; otherwise pick `queries[0]`,
falling back to the user query when the candidate list is empty. -/
def rephrase_query (g : Gateways) (user_query : String) :
    Except String String × List Event :=
  match g.classify user_query with
  | .error e => (.error e, [.classifyCall])
  | .ok result =>
    if result.query_type = "wrong" then
      (.error "Invalid or irrelevant query. Please ask a database-related question.",
       [.classifyCall])
    else
      (.ok (match result.queries with
            | [] => user_query
            | q :: _ => q),
       [.classifyCall])

/-- `TextToSQLClient.generate_sql`: one completion, stripped. -/
def generate_sql (g : Gateways)
    (rephrased_query table_name table_schema : String) :
    Except String String × List Event :=
  match g.generate rephrased_query table_name table_schema with
  | .error e => (.error e, [.generateCall])
  | .ok content => (.ok (pyStrip content), [.generateCall])

/-- The fixed result text of the all-retries-failed envelope. -/
def failureResult : String :=
  "All query correction attempts failed. Please try rephrasing your question."

/-- The `while retry_count < max_retries` loop of
`process_query_for_selected_table`.  The extra `fuel` argument makes
the recursion structural; the loop is entered with
`fuel = max_retries` and the invariant `retry_count + fuel =
max_retries` holds at every recursive call, so running out of fuel is
exactly the loop condition failing, in which case the Python function
falls through and returns `None`. -/
def processLoop (g : Gateways)
    (table_name table_schema user_query rephrased_query sql_query
      original_query : String) (max_retries : Nat) :
    Nat → Nat → String → List String → Except String PyResult × List Event
  | 0, _, _, _ => (.ok .pyNone, [])
  | fuel + 1, retry_count, current_query, error_messages =>
    match g.execute current_query table_name with
    | .error e => (.error e, [.execCall (.error e)])
    | .ok result =>
      if strContains result sentinel then
        let error_message := pyStrip (pySplitSecond result sentinel)
        let error_messages := error_messages ++ [error_message]
        match g.repair error_message current_query table_name table_schema
            rephrased_query with
        | .error e => (.error e, [.execCall (.ok result), .repairCall])
        | .ok corrected_sql =>
          let current_query := corrected_sql
          let retry_count := retry_count + 1
          if retry_count = max_retries then
            match g.execute current_query table_name with
            | .error e =>
              (.error e,
               [.execCall (.ok result), .repairCall, .execCall (.error e)])
            | .ok final_result =>
              if strContains final_result sentinel then
                (.ok (.env { user_query := some user_query,
                             rephrased_query := some rephrased_query,
                             selected_table := some table_name,
                             original_sql_query := some original_query,
                             error_messages := some error_messages,
                             final_sql_query := some current_query,
                             result := some failureResult }),
                 [.execCall (.ok result), .repairCall,
                  .execCall (.ok final_result)])
              else
                match g.summarize user_query final_result with
                | .error e =>
                  (.error e,
                   [.execCall (.ok result), .repairCall,
                    .execCall (.ok final_result), .summarizeCall])
                | .ok summary =>
                  (.ok (.env { user_query := some user_query,
                               rephrased_query := some rephrased_query,
                               selected_table := some table_name,
                               original_sql_query := some original_query,
                               error_messages := some error_messages,
                               final_sql_query := some current_query,
                               result := some final_result,
                               summary := some summary }),
                   [.execCall (.ok result), .repairCall,
                    .execCall (.ok final_result), .summarizeCall])
          else
            let next := processLoop g table_name table_schema user_query
              rephrased_query sql_query original_query max_retries fuel
              retry_count current_query error_messages
            (next.1, [.execCall (.ok result), .repairCall] ++ next.2)
      else
        match g.summarize user_query result with
        | .error e => (.error e, [.execCall (.ok result), .summarizeCall])
        | .ok summary =>
          if retry_count = 0 then
            (.ok (.env { user_query := some user_query,
                         rephrased_query := some rephrased_query,
                         selected_table := some table_name,
                         sql_query := some sql_query,
                         result := some result,
                         summary := some summary }),
             [.execCall (.ok result), .summarizeCall])
          else
            (.ok (.env { user_query := some user_query,
                         rephrased_query := some rephrased_query,
                         selected_table := some table_name,
                         original_sql_query := some original_query,
                         error_messages := some error_messages,
                         final_sql_query := some current_query,
                         result := some result,
                         summary := some summary }),
             [.execCall (.ok result), .summarizeCall])

/-- The error text of the missing-selection envelope. -/
def noTableError : String := "No table has been selected for this session"

/-- `TextToSQLClient.process_query_for_selected_table`.  The whole body
runs inside `try ... except Exception as e`, whose handler returns
`{"user_query": user_query, "error": str(e)}`; the missing-selection
check returns `{"error": ...}` before any gateway call; otherwise
classification, generation and the retry loop run in order, with
`original_query = sql_query = ` the generated SQL and
`retry_count = 0`, `error_messages = []` initially. -/
def process_query_for_selected_table (g : Gateways) (self : Session)
    (user_query : String) (max_retries : Nat) : PyResult × List Event :=
  match self.selected_table, self.table_schema with
  | some selected_table, some table_schema =>
    match rephrase_query g user_query with
    | (.error e, evs) =>
      (.env { user_query := some user_query, error := some e }, evs)
    | (.ok rephrased_query, evs1) =>
      match generate_sql g rephrased_query selected_table table_schema with
      | (.error e, evs2) =>
        (.env { user_query := some user_query, error := some e }, evs1 ++ evs2)
      | (.ok sql_query, evs2) =>
        match processLoop g selected_table table_schema user_query
            rephrased_query sql_query sql_query max_retries max_retries 0
            sql_query [] with
        | (.error e, evs3) =>
          (.env { user_query := some user_query, error := some e },
           evs1 ++ evs2 ++ evs3)
        | (.ok r, evs3) => (r, evs1 ++ evs2 ++ evs3)
  | _, _ => (.env { error := some noTableError }, [])

/-- Recognizer for execution-call events. -/
def isExecEvent : Event → Bool
  | .execCall _ => true
  | _ => false

/-- Recognizer for repair-call events. -/
def isRepairEvent : Event → Bool
  | .repairCall => true
  | _ => false

/-- Number of execution calls in a trace. -/
def execCount (evs : List Event) : Nat := evs.countP isExecEvent

/-- Number of repair calls in a trace. -/
def repairCount (evs : List Event) : Nat := evs.countP isRepairEvent

/-! ### Table selection (`api/clickhouse_server.py` + `api/main.py`)

The database behind the MCP server is external: `describe` models the
behaviour of `client.query(f"DESCRIBE TABLE {table_name}")`, returning
either the (column name, column type) rows or `Except.error` with the
text of the raised exception. -/

/-- The `json.dumps(schema_json, indent=2)` output built by the
`get_table_schema` tool handler: the nested object
`\x7btable: \x7b"row_data": \x7bcol: \x7b"type": t\x7d...\x7d\x7d\x7d`,
rows in insertion order (column names and types are rendered without
JSON escaping, which the claims never depend on). -/
def schemaJson (table_name : String) (rows : List (String × String)) :
    String :=
  let entries := rows.map (fun ct =>
    "      \"" ++ ct.1 ++ "\": \x7b\n        \"type\": \"" ++ ct.2
      ++ "\"\n      \x7d")
  "\x7b\n  \"" ++ table_name ++ "\": \x7b\n    \"row_data\": \x7b\n"
    ++ String.intercalate ",\n" entries
    ++ "\n    \x7d\n  \x7d\n\x7d"

/-- The `get_table_schema` branch of the server's `call_tool`: run
`DESCRIBE TABLE`; on an exception return the error text, on an empty
result set return the not-found text, otherwise the formatted schema
JSON.  In every case the reply is a single text content. -/
def server_get_table_schema
    (describe : String → Except String (List (String × String)))
    (table_name : String) : String :=
  match describe table_name with
  | .error e =>
    "Error retrieving schema for table " ++ table_name ++ ": " ++ e
  | .ok [] => "Table " ++ table_name ++ " not found or has no columns."
  | .ok rows => schemaJson table_name rows

/-- `TextToSQLClient.get_table_schema`: call the tool and return the
first text content.  Against this server the reply always carries one
text content, so the `return None` fallback is unreachable. -/
def get_table_schema
    (describe : String → Except String (List (String × String)))
    (table_name : String) : Option String :=
  some (server_get_table_schema describe table_name)

/-- Python truthiness test `not table_schema` on an optional string. -/
def isFalsy : Option String → Bool
  | none => true
  | some s => s.isEmpty

/-- The success body of the `/select_table` endpoint. -/
structure SelectTableResponse where
  message : String
  schema : String
  deriving Repr, DecidableEq

/-- The `select_table` endpoint of `api/main.py`: fetch the schema
text; when it is falsy raise `HTTPException(404, ...)` — which the
surrounding `except Exception` handler immediately converts into
`HTTPException(500, "Error selecting table: " + str(e))` — and
otherwise store table name and schema on the client instance and
return the success body.  The first component is the HTTP outcome
(`Except.error` = raised `HTTPException` as (status, detail)), the
second the session state after the call. -/
def select_table
    (describe : String → Except String (List (String × String)))
    (client : Session) (table_name : String) :
    Except (Nat × String) SelectTableResponse × Session :=
  match get_table_schema describe table_name with
  | none =>
    (.error (500, "Error selecting table: 404: Schema for table '"
        ++ table_name ++ "' not found."), client)
  | some table_schema =>
    if isFalsy (some table_schema) then
      (.error (500, "Error selecting table: 404: Schema for table '"
          ++ table_name ++ "' not found."), client)
    else
      (.ok { message := "Table '" ++ table_name ++ "' selected successfully.",
             schema := table_schema },
       { selected_table := some table_name, table_schema := some table_schema })

/-! ### Helper lemmas -/

/-- The substring test agrees with `List.IsInfix`. -/
theorem charsContain_iff (pat : List Char) :
    ∀ l : List Char, charsContain pat l = true ↔ pat <:+: l := by
  intro l
  induction l with
  | nil => simp [charsContain, List.isEmpty_iff, List.infix_nil]
  | cons c cs ih =>
    simp only [charsContain, Bool.or_eq_true, List.isPrefixOf_iff_prefix, ih,
      List.infix_cons_iff]

/-- `strContains` is the Python substring relation. -/
theorem strContains_iff (s pat : String) :
    strContains s pat = true ↔ pat.toList <:+: s.toList :=
  charsContain_iff pat.toList s.toList

/-- Call-count bound for the retry loop: one iteration's trace holds at
most one more execution call than repair calls, and at most `fuel`
repair calls in total. -/
theorem processLoop_counts (g : Gateways)
    (tn ts uq rq sq oq : String) (mr : Nat) :
    ∀ fuel rc cq ems,
      execCount (processLoop g tn ts uq rq sq oq mr fuel rc cq ems).2 ≤ fuel + 1 ∧
      repairCount (processLoop g tn ts uq rq sq oq mr fuel rc cq ems).2 ≤ fuel := by
  intro fuel
  induction fuel with
  | zero =>
    intro rc cq ems
    simp [processLoop, execCount, repairCount]
  | succ f ih =>
    intro rc cq ems
    simp only [processLoop]
    cases hex : g.execute cq tn with
    | error e =>
      simp [execCount, repairCount, isExecEvent, isRepairEvent]
    | ok result =>
      cases hs : strContains result sentinel with
      | false =>
        simp only [hs, Bool.false_eq_true, if_false]
        cases hsum : g.summarize uq result with
        | error e =>
          simp [execCount, repairCount, isExecEvent, isRepairEvent,
            List.countP_cons]
        | ok summary =>
          by_cases hrc : rc = 0 <;>
            simp [hrc, execCount, repairCount, isExecEvent, isRepairEvent,
              List.countP_cons]
      | true =>
        simp only [hs, if_true]
        cases hrep : g.repair (pyStrip (pySplitSecond result sentinel)) cq tn ts rq with
        | error e =>
          simp [execCount, repairCount, isExecEvent, isRepairEvent,
            List.countP_cons]
        | ok corrected_sql =>
          by_cases hrc : rc + 1 = mr
          · simp only [hrc, if_true]
            cases hex2 : g.execute corrected_sql tn with
            | error e =>
              simp [execCount, repairCount, isExecEvent, isRepairEvent,
                List.countP_cons]
            | ok final_result =>
              cases hs2 : strContains final_result sentinel with
              | true =>
                simp [hs2, execCount, repairCount, isExecEvent, isRepairEvent,
                  List.countP_cons]
              | false =>
                simp only [hs2, Bool.false_eq_true, if_false]
                cases hsum : g.summarize uq final_result with
                | error e =>
                  simp [execCount, repairCount, isExecEvent, isRepairEvent,
                    List.countP_cons]
                | ok summary =>
                  simp [execCount, repairCount, isExecEvent, isRepairEvent,
                    List.countP_cons]
          · simp only [hrc, if_false]
            have h := ih (rc + 1) corrected_sql
              (ems ++ [pyStrip (pySplitSecond result sentinel)])
            simp only [execCount, repairCount, List.countP_append,
              List.countP_cons] at h ⊢
            simp [isExecEvent, isRepairEvent]
            omega

/-- The classification step always makes exactly one classify call. -/
theorem rephrase_query_events (g : Gateways) (uq : String) :
    (rephrase_query g uq).2 = [Event.classifyCall] := by
  unfold rephrase_query
  cases g.classify uq with
  | error e => rfl
  | ok result =>
    by_cases h : result.query_type = "wrong" <;> simp [h]

/-- The generation step always makes exactly one generate call. -/
theorem generate_sql_events (g : Gateways) (rq tn ts : String) :
    (generate_sql g rq tn ts).2 = [Event.generateCall] := by
  unfold generate_sql
  cases g.generate rq tn ts <;> rfl

/-- **C1.**  For every `max_retries` and every gateway behaviour
(including one that always returns the same broken SQL), a single
invocation of `process_query_for_selected_table` issues at most
`max_retries + 1` execution calls and at most `max_retries` repair
calls.  Termination for every behaviour is witnessed by the embedding
itself: the loop is total, with `max_retries - retry_count` strictly
decreasing on the only repeating edge. -/
theorem process_call_bounds (g : Gateways) (self : Session)
    (user_query : String) (max_retries : Nat) :
    execCount (process_query_for_selected_table g self user_query
        max_retries).2 ≤ max_retries + 1 ∧
    repairCount (process_query_for_selected_table g self user_query
        max_retries).2 ≤ max_retries := by
  unfold process_query_for_selected_table
  cases hsel : self.selected_table with
  | none => simp [execCount, repairCount]
  | some tn =>
    cases hsch : self.table_schema with
    | none => simp [execCount, repairCount]
    | some ts =>
      have h1 := rephrase_query_events g user_query
      rcases hrq : rephrase_query g user_query with ⟨r1, evs1⟩
      rw [hrq] at h1; simp only at h1; subst h1
      cases r1 with
      | error e => simp [execCount, repairCount, isExecEvent, isRepairEvent]
      | ok rephrased =>
        dsimp only
        have h2 := generate_sql_events g rephrased tn ts
        rcases hgen : generate_sql g rephrased tn ts with ⟨r2, evs2⟩
        rw [hgen] at h2; simp only at h2; subst h2
        cases r2 with
        | error e =>
          simp [execCount, repairCount, isExecEvent, isRepairEvent]
        | ok sql_query =>
          dsimp only
          have h3 := processLoop_counts g tn ts user_query rephrased
            sql_query sql_query max_retries max_retries 0 sql_query []
          rcases hloop : processLoop g tn ts user_query rephrased sql_query
            sql_query max_retries max_retries 0 sql_query [] with ⟨r3, evs3⟩
          rw [hloop] at h3
          cases r3 <;>
            simp only [execCount, repairCount, List.countP_append,
              List.countP_cons, List.countP_nil] at h3 ⊢ <;>
            simp [isExecEvent, isRepairEvent] <;>
            omega

/-- Every envelope built inside the retry loop carries no `error` key
(the `error` key only appears in the two outer failure envelopes). -/
theorem processLoop_env_error_none (g : Gateways)
    (tn ts uq rq sq oq : String) (mr : Nat) :
    ∀ fuel rc cq ems env,
      (processLoop g tn ts uq rq sq oq mr fuel rc cq ems).1 =
        .ok (.env env) → env.error = none := by
  intro fuel
  induction fuel with
  | zero =>
    intro rc cq ems env h
    simp [processLoop] at h
  | succ f ih =>
    intro rc cq ems env h
    simp only [processLoop] at h
    cases hex : g.execute cq tn <;> rw [hex] at h <;> dsimp only at h
    · simp at h
    · rename_i result
      by_cases hs : strContains result sentinel = true
      · rw [if_pos hs] at h
        cases hrep : g.repair (pyStrip (pySplitSecond result sentinel)) cq tn
            ts rq <;> rw [hrep] at h <;> dsimp only at h
        · simp at h
        · rename_i corrected_sql
          by_cases hrc : rc + 1 = mr
          · rw [if_pos hrc] at h
            cases hex2 : g.execute corrected_sql tn <;> rw [hex2] at h <;>
              dsimp only at h
            · simp at h
            · rename_i final_result
              by_cases hs2 : strContains final_result sentinel = true
              · rw [if_pos hs2] at h
                simp only [Prod.fst, Except.ok.injEq, PyResult.env.injEq] at h
                subst h; rfl
              · rw [if_neg hs2] at h
                cases hsum : g.summarize uq final_result <;> rw [hsum] at h <;>
                  dsimp only at h
                · simp at h
                · simp only [Prod.fst, Except.ok.injEq, PyResult.env.injEq] at h
                  subst h; rfl
          · rw [if_neg hrc] at h
            exact ih (rc + 1) corrected_sql
              (ems ++ [pyStrip (pySplitSecond result sentinel)]) env h
      · rw [if_neg hs] at h
        cases hsum : g.summarize uq result <;> rw [hsum] at h <;>
          dsimp only at h
        · simp at h
        · rename_i summary
          by_cases hrc : rc = 0
          · rw [if_pos hrc] at h
            simp only [Prod.fst, Except.ok.injEq, PyResult.env.injEq] at h
            subst h; rfl
          · rw [if_neg hrc] at h
            simp only [Prod.fst, Except.ok.injEq, PyResult.env.injEq] at h
            subst h; rfl

/-- Under the loop invariant `retry_count + fuel = max_retries`, with
fuel remaining, the loop never falls through to `None`: it either
propagates a raised exception or returns an envelope. -/
theorem processLoop_no_none (g : Gateways)
    (tn ts uq rq sq oq : String) (mr : Nat) :
    ∀ fuel rc cq ems, rc + fuel = mr → 1 ≤ fuel →
      (∃ e, (processLoop g tn ts uq rq sq oq mr fuel rc cq ems).1 =
        .error e) ∨
      (∃ env, (processLoop g tn ts uq rq sq oq mr fuel rc cq ems).1 =
        .ok (.env env)) := by
  intro fuel
  induction fuel with
  | zero => intro rc cq ems _ h; omega
  | succ f ih =>
    intro rc cq ems hinv _
    simp only [processLoop]
    cases hex : g.execute cq tn <;> dsimp only
    · exact .inl ⟨_, rfl⟩
    · rename_i result
      by_cases hs : strContains result sentinel = true
      · rw [if_pos hs]
        cases hrep : g.repair (pyStrip (pySplitSecond result sentinel)) cq tn
            ts rq <;> dsimp only
        · exact .inl ⟨_, rfl⟩
        · rename_i corrected_sql
          by_cases hrc : rc + 1 = mr
          · rw [if_pos hrc]
            cases hex2 : g.execute corrected_sql tn <;> dsimp only
            · exact .inl ⟨_, rfl⟩
            · rename_i final_result
              by_cases hs2 : strContains final_result sentinel = true
              · rw [if_pos hs2]; exact .inr ⟨_, rfl⟩
              · rw [if_neg hs2]
                cases hsum : g.summarize uq final_result <;> dsimp only
                · exact .inl ⟨_, rfl⟩
                · exact .inr ⟨_, rfl⟩
          · rw [if_neg hrc]
            have hf : 1 ≤ f := by omega
            have := ih (rc + 1) corrected_sql
              (ems ++ [pyStrip (pySplitSecond result sentinel)]) (by omega) hf
            exact this
      · rw [if_neg hs]
        cases hsum : g.summarize uq result <;> dsimp only
        · exact .inl ⟨_, rfl⟩
        · by_cases hrc : rc = 0
          · rw [if_pos hrc]; exact .inr ⟨_, rfl⟩
          · rw [if_neg hrc]; exact .inr ⟨_, rfl⟩

/-- Under the loop invariant, when every execution returns a
sentinel-containing response and every repair call returns normally,
the loop ends in the retries-exhausted envelope.  The error-message
list grows by one entry per loop iteration — `fuel` in total — and the
final failing execution's message is never appended. -/
theorem processLoop_all_failures (g : Gateways)
    (tn ts uq rq sq oq : String) (mr : Nat)
    (hexec : ∀ q t, ∃ r, g.execute q t = .ok r ∧
      strContains r sentinel = true)
    (hrep : ∀ a b c d e, ∃ s, g.repair a b c d e = .ok s) :
    ∀ fuel rc cq ems, rc + fuel = mr → 1 ≤ fuel →
      ∃ env l, (processLoop g tn ts uq rq sq oq mr fuel rc cq ems).1 =
          .ok (.env env) ∧
        env.error_messages = some l ∧ l.length = ems.length + fuel ∧
        env.summary = none ∧ env.result = some failureResult ∧
        execCount (processLoop g tn ts uq rq sq oq mr fuel rc cq ems).2 =
          fuel + 1 ∧
        repairCount (processLoop g tn ts uq rq sq oq mr fuel rc cq ems).2 =
          fuel := by
  intro fuel
  induction fuel with
  | zero => intro rc cq ems _ h; omega
  | succ f ih =>
    intro rc cq ems hinv _
    obtain ⟨r, hex, hs⟩ := hexec cq tn
    obtain ⟨c, hr⟩ := hrep (pyStrip (pySplitSecond r sentinel)) cq tn ts rq
    simp only [processLoop]
    rw [hex]; dsimp only
    rw [if_pos hs, hr]; dsimp only
    by_cases hrc : rc + 1 = mr
    · rw [if_pos hrc]
      obtain ⟨r2, hex2, hs2⟩ := hexec c tn
      rw [hex2]; dsimp only
      rw [if_pos hs2]
      have hf : f = 0 := by omega
      refine ⟨_, _, rfl, rfl, ?_, rfl, rfl, ?_, ?_⟩ <;>
        simp [hf, execCount, repairCount, isExecEvent, isRepairEvent,
          List.countP_cons]
    · rw [if_neg hrc]
      have hf : 1 ≤ f := by omega
      obtain ⟨env, l, h1, h2, h3, h4, h5, h6, h7⟩ := ih (rc + 1) c
        (ems ++ [pyStrip (pySplitSecond r sentinel)]) (by omega) hf
      refine ⟨env, l, h1, h2, ?_, h4, h5, ?_, ?_⟩
      · simp only [List.length_append, List.length_cons, List.length_nil] at h3
        omega
      · simp only [execCount, List.countP_append, List.countP_cons,
          List.countP_nil] at h6 ⊢
        simp [isExecEvent]
        omega
      · simp only [repairCount, List.countP_append, List.countP_cons,
          List.countP_nil] at h7 ⊢
        simp [isRepairEvent]
        omega

/-- With a summarizer that never raises, the loop returns an envelope
carrying `summary` exactly when some execution call in its trace
returned a response free of the sentinel. -/
theorem processLoop_summary_iff (g : Gateways)
    (tn ts uq rq sq oq : String) (mr : Nat)
    (hsum : ∀ q r, ∃ s, g.summarize q r = .ok s) :
    ∀ fuel rc cq ems,
      (∃ env, (processLoop g tn ts uq rq sq oq mr fuel rc cq ems).1 =
          .ok (.env env) ∧ env.summary.isSome = true) ↔
      (∃ r, Event.execCall (Except.ok r) ∈
          (processLoop g tn ts uq rq sq oq mr fuel rc cq ems).2 ∧
        strContains r sentinel = false) := by
  intro fuel
  induction fuel with
  | zero =>
    intro rc cq ems
    simp [processLoop]
  | succ f ih =>
    intro rc cq ems
    simp only [processLoop]
    cases hex : g.execute cq tn <;> dsimp only
    · simp
    · rename_i result
      cases hs : strContains result sentinel
      · rw [if_neg (by simp)]
        obtain ⟨s, hsu⟩ := hsum uq result
        rw [hsu]; dsimp only
        by_cases hrc : rc = 0
        · rw [if_pos hrc]
          constructor
          · intro _; exact ⟨result, by simp, hs⟩
          · intro _; exact ⟨_, rfl, rfl⟩
        · rw [if_neg hrc]
          constructor
          · intro _; exact ⟨result, by simp, hs⟩
          · intro _; exact ⟨_, rfl, rfl⟩
      · rw [if_pos rfl]
        cases hrep : g.repair (pyStrip (pySplitSecond result sentinel)) cq tn
            ts rq <;> dsimp only
        · simp [hs]
        · rename_i corrected_sql
          by_cases hrc : rc + 1 = mr
          · rw [if_pos hrc]
            cases hex2 : g.execute corrected_sql tn <;> dsimp only
            · simp [hs]
            · rename_i final_result
              cases hs2 : strContains final_result sentinel
              · rw [if_neg (by simp)]
                obtain ⟨s, hsu⟩ := hsum uq final_result
                rw [hsu]; dsimp only
                constructor
                · intro _; exact ⟨final_result, by simp, hs2⟩
                · intro _; exact ⟨_, rfl, rfl⟩
              · rw [if_pos rfl]
                simp [hs, hs2]
          · rw [if_neg hrc]
            have hiff := ih (rc + 1) corrected_sql
              (ems ++ [pyStrip (pySplitSecond result sentinel)])
            constructor
            · intro hl
              obtain ⟨r, hmem, hns⟩ := hiff.mp hl
              exact ⟨r, by simp [hmem], hns⟩
            · rintro ⟨r, hmem, hns⟩
              apply hiff.mpr
              refine ⟨r, ?_, hns⟩
              simp only [List.cons_append, List.nil_append, List.mem_cons] at hmem
              rcases hmem with h1 | h1 | h1
              · injection h1 with h1
                injection h1 with h1
                subst h1
                rw [hs] at hns
                exact absurd hns (by simp)
              · exact absurd h1 (by simp)
              · exact h1

/-- Unfolding of the orchestrator on a session with both attributes
set. -/
theorem process_unfold (g : Gateways) (self : Session) (uq : String)
    (mr : Nat) (tn ts : String)
    (hsel : self.selected_table = some tn)
    (hsch : self.table_schema = some ts) :
    process_query_for_selected_table g self uq mr =
      match rephrase_query g uq with
      | (.error e, evs) =>
        (.env { user_query := some uq, error := some e }, evs)
      | (.ok rq, evs1) =>
        match generate_sql g rq tn ts with
        | (.error e, evs2) =>
          (.env { user_query := some uq, error := some e }, evs1 ++ evs2)
        | (.ok sq, evs2) =>
          match processLoop g tn ts uq rq sq sq mr mr 0 sq [] with
          | (.error e, evs3) =>
            (.env { user_query := some uq, error := some e },
             evs1 ++ evs2 ++ evs3)
          | (.ok r, evs3) => (r, evs1 ++ evs2 ++ evs3) := by
  unfold process_query_for_selected_table
  rw [hsel, hsch]

/-! ### Concrete fixtures used by witnesses and counterexamples -/

/-- A session with a table selected and its schema cached. -/
def fixedSession : Session :=
  { selected_table := some "orders", table_schema := some "id Int32" }

/-- Gateway behaviour whose executions always fail with the sentinel. -/
def alwaysFailG : Gateways :=
  { classify := fun _ => .ok { query_type := "valid", queries := ["q1"] },
    generate := fun _ _ _ => .ok "SELECT 1",
    repair := fun _ _ _ _ _ => .ok "SELECT 2",
    execute := fun _ _ => .ok "Error executing custom query: boom",
    summarize := fun q r => .ok ("summary of " ++ q ++ "/" ++ r) }

/-- Gateway behaviour whose single execution succeeds. -/
def okG : Gateways :=
  { classify := fun _ => .ok { query_type := "valid", queries := [] },
    generate := fun _ _ _ => .ok "  SELECT 42  ",
    repair := fun _ _ _ _ _ => .ok "SELECT 2",
    execute := fun _ _ => .ok "Query executed successfully: rows",
    summarize := fun _ _ => .ok "the summary" }

/-- Gateway behaviour that classifies every query as irrelevant. -/
def wrongG : Gateways :=
  { classify := fun _ => .ok { query_type := "wrong", queries := [] },
    generate := fun _ _ _ => .ok "SELECT 1",
    repair := fun _ _ _ _ _ => .ok "SELECT 1",
    execute := fun _ _ => .ok "rows",
    summarize := fun _ _ => .ok "s" }

/-! ### Claim theorems -/

/-- **C3.**  When classification returns a verdict with
`query_type = "wrong"`, the invocation makes no generation, execution
or repair call — its whole trace is the single classify call — and
returns the `IrrelevantQuery` failure envelope holding the user query
and the `ValueError` text. -/
theorem process_wrong_classification (g : Gateways) (self : Session)
    (uq : String) (mr : Nat) (tn ts : String) (v : Verdict)
    (hsel : self.selected_table = some tn)
    (hsch : self.table_schema = some ts)
    (hcls : g.classify uq = .ok v)
    (hw : v.query_type = "wrong") :
    process_query_for_selected_table g self uq mr =
      (.env { user_query := some uq,
              error := some "Invalid or irrelevant query. Please ask a database-related question." },
       [Event.classifyCall]) ∧
    Event.generateCall ∉ (process_query_for_selected_table g self uq mr).2 ∧
    execCount (process_query_for_selected_table g self uq mr).2 = 0 ∧
    repairCount (process_query_for_selected_table g self uq mr).2 = 0 := by
  have h1 : rephrase_query g uq =
      (.error "Invalid or irrelevant query. Please ask a database-related question.",
       [.classifyCall]) := by
    unfold rephrase_query; rw [hcls]; dsimp only; rw [if_pos hw]
  have key : process_query_for_selected_table g self uq mr =
      (.env { user_query := some uq,
              error := some "Invalid or irrelevant query. Please ask a database-related question." },
       [Event.classifyCall]) := by
    rw [process_unfold g self uq mr tn ts hsel hsch, h1]
  refine ⟨key, ?_, ?_, ?_⟩ <;> rw [key] <;>
    simp [execCount, repairCount, isExecEvent, isRepairEvent]

/-- Witness for C3 at a concrete irrelevant query. -/
theorem process_wrong_classification_witness :
    process_query_for_selected_table wrongG fixedSession "what is love" 3 =
      (.env { user_query := some "what is love",
              error := some "Invalid or irrelevant query. Please ask a database-related question." },
       [Event.classifyCall]) ∧
    Event.generateCall ∉
      (process_query_for_selected_table wrongG fixedSession "what is love" 3).2 ∧
    execCount
      (process_query_for_selected_table wrongG fixedSession "what is love" 3).2 = 0 ∧
    repairCount
      (process_query_for_selected_table wrongG fixedSession "what is love" 3).2 = 0 :=
  process_wrong_classification wrongG fixedSession "what is love" 3
    "orders" "id Int32" { query_type := "wrong", queries := [] }
    rfl rfl rfl rfl

/-- **C8.**  When the classification verdict is not `"wrong"` but its
candidate list is empty, the original user text is used verbatim as the
rephrased query and the pipeline proceeds to the generation call. -/
theorem empty_candidates_fallback (g : Gateways) (self : Session)
    (uq : String) (mr : Nat) (tn ts : String) (v : Verdict)
    (hsel : self.selected_table = some tn)
    (hsch : self.table_schema = some ts)
    (hcls : g.classify uq = .ok v)
    (hw : v.query_type ≠ "wrong")
    (hempty : v.queries = []) :
    rephrase_query g uq = (.ok uq, [Event.classifyCall]) ∧
    Event.generateCall ∈ (process_query_for_selected_table g self uq mr).2 := by
  have h1 : rephrase_query g uq = (.ok uq, [Event.classifyCall]) := by
    unfold rephrase_query; rw [hcls]; dsimp only; rw [if_neg hw, hempty]
  refine ⟨h1, ?_⟩
  rw [process_unfold g self uq mr tn ts hsel hsch, h1]
  dsimp only
  rcases hgen : generate_sql g uq tn ts with ⟨r2, evs2⟩
  have h2 := generate_sql_events g uq tn ts
  rw [hgen] at h2; simp only at h2; subst h2
  cases r2
  · simp
  · dsimp only
    rcases hloop : processLoop g tn ts uq uq _ _ mr mr 0 _ [] with ⟨r3, evs3⟩
    cases r3 <;> simp

/-- Witness for C8: a concrete verdict with an empty candidate list. -/
theorem empty_candidates_fallback_witness :
    rephrase_query okG "show my orders" = (.ok "show my orders", [Event.classifyCall]) ∧
    Event.generateCall ∈
      (process_query_for_selected_table okG fixedSession "show my orders" 3).2 :=
  empty_candidates_fallback okG fixedSession "show my orders" 3
    "orders" "id Int32" { query_type := "valid", queries := [] }
    rfl rfl rfl (by decide) rfl

/-- **C10.**  With `max_retries = 0` (the embedding of every
non-positive Python value, since the loop guard `retry_count <
max_retries` is already false at entry) and a classification that does
not reject, the invocation still performs the classify and generate
calls, performs no execution call, and returns Python `None` instead
of an envelope. -/
theorem max_retries_zero_returns_none (g : Gateways) (self : Session)
    (uq : String) (tn ts rq sq : String)
    (hsel : self.selected_table = some tn)
    (hsch : self.table_schema = some ts)
    (hrq : rephrase_query g uq = (.ok rq, [.classifyCall]))
    (hsq : generate_sql g rq tn ts = (.ok sq, [.generateCall])) :
    process_query_for_selected_table g self uq 0 =
      (.pyNone, [Event.classifyCall, Event.generateCall]) := by
  rw [process_unfold g self uq 0 tn ts hsel hsch, hrq]
  dsimp only
  rw [hsq]
  rfl

/-- Witness for C10 at a concrete input. -/
theorem max_retries_zero_returns_none_witness :
    process_query_for_selected_table okG fixedSession "show my orders" 0 =
      (.pyNone, [Event.classifyCall, Event.generateCall]) :=
  max_retries_zero_returns_none okG fixedSession "show my orders"
    "orders" "id Int32" "show my orders" "SELECT 42" rfl rfl rfl rfl

/-- **C9.**  When the first execution's response is free of the
sentinel (and the summarizer returns), the invocation returns the
single-attempt success envelope: exactly one execution call, no repair
call, and none of the repair-history keys `original_sql_query`,
`error_messages`, `final_sql_query`. -/
theorem first_exec_success_envelope (g : Gateways) (self : Session)
    (uq : String) (mr : Nat) (tn ts rq sq r s : String)
    (hsel : self.selected_table = some tn)
    (hsch : self.table_schema = some ts)
    (hrq : rephrase_query g uq = (.ok rq, [.classifyCall]))
    (hsq : generate_sql g rq tn ts = (.ok sq, [.generateCall]))
    (hex : g.execute sq tn = .ok r)
    (hns : strContains r sentinel = false)
    (hsum : g.summarize uq r = .ok s)
    (hmr : 1 ≤ mr) :
    process_query_for_selected_table g self uq mr =
      (.env { user_query := some uq, rephrased_query := some rq,
              selected_table := some tn, sql_query := some sq,
              result := some r, summary := some s },
       [Event.classifyCall, Event.generateCall,
        Event.execCall (Except.ok r), Event.summarizeCall]) ∧
    execCount (process_query_for_selected_table g self uq mr).2 = 1 ∧
    repairCount (process_query_for_selected_table g self uq mr).2 = 0 := by
  have key : process_query_for_selected_table g self uq mr =
      (.env { user_query := some uq, rephrased_query := some rq,
              selected_table := some tn, sql_query := some sq,
              result := some r, summary := some s },
       [Event.classifyCall, Event.generateCall,
        Event.execCall (Except.ok r), Event.summarizeCall]) := by
    rw [process_unfold g self uq mr tn ts hsel hsch, hrq]
    dsimp only
    rw [hsq]
    dsimp only
    obtain ⟨f, rfl⟩ : ∃ f, mr = f + 1 := ⟨mr - 1, by omega⟩
    simp only [processLoop]
    rw [hex]
    dsimp only
    rw [if_neg (by simp [hns]), hsum]
    dsimp only
    rfl
  refine ⟨key, ?_, ?_⟩ <;> rw [key] <;> rfl

/-- Witness for C9 at a concrete succeeding gateway. -/
theorem first_exec_success_envelope_witness :
    process_query_for_selected_table okG fixedSession "show my orders" 3 =
      (.env { user_query := some "show my orders",
              rephrased_query := some "show my orders",
              selected_table := some "orders",
              sql_query := some "SELECT 42",
              result := some "Query executed successfully: rows",
              summary := some "the summary" },
       [Event.classifyCall, Event.generateCall,
        Event.execCall (Except.ok "Query executed successfully: rows"),
        Event.summarizeCall]) ∧
    execCount
      (process_query_for_selected_table okG fixedSession "show my orders" 3).2 = 1 ∧
    repairCount
      (process_query_for_selected_table okG fixedSession "show my orders" 3).2 = 0 :=
  first_exec_success_envelope okG fixedSession "show my orders" 3
    "orders" "id Int32" "show my orders" "SELECT 42"
    "Query executed successfully: rows" "the summary"
    rfl rfl rfl rfl rfl (by decide) rfl (by decide)

/-- One unfolding of the loop: with fuel remaining, the repair branch
is taken exactly when the execution response contains the sentinel. -/
theorem processLoop_repair_mem (g : Gateways)
    (tn ts uq rq sq oq : String) (mr : Nat)
    (fuel rc : Nat) (cq : String) (ems : List String) (r : String)
    (hex : g.execute cq tn = .ok r) :
    (Event.repairCall ∈
        (processLoop g tn ts uq rq sq oq mr (fuel + 1) rc cq ems).2 ↔
      strContains r sentinel = true) := by
  simp only [processLoop]
  rw [hex]
  dsimp only
  cases hs : strContains r sentinel
  · rw [if_neg (by simp)]
    cases hsum : g.summarize uq r <;> dsimp only
    · simp
    · by_cases hrc : rc = 0
      · rw [if_pos hrc]; simp
      · rw [if_neg hrc]; simp
  · rw [if_pos rfl]
    cases hrep : g.repair (pyStrip (pySplitSecond r sentinel)) cq tn
        ts rq <;> dsimp only
    · simp
    · rename_i corrected_sql
      by_cases hrc : rc + 1 = mr
      · rw [if_pos hrc]
        cases hex2 : g.execute corrected_sql tn <;> dsimp only
        · simp
        · rename_i final_result
          cases hs2 : strContains final_result sentinel
          · rw [if_neg (by simp)]
            cases hsum : g.summarize uq final_result <;> dsimp only <;> simp
          · rw [if_pos rfl]; simp
      · rw [if_neg hrc]; simp

/-- **C4.**  An execution response drives the repair cycle exactly when
the fixed sentinel phrase occurs in it as a substring: with fuel for at
least one iteration, a repair call appears in the trace iff the first
execution's response contains `"Error executing custom query:"`,
whatever row-set content the same response also carries. -/
theorem repair_iff_sentinel (g : Gateways) (self : Session)
    (uq : String) (mr : Nat) (tn ts rq sq r : String)
    (hsel : self.selected_table = some tn)
    (hsch : self.table_schema = some ts)
    (hrq : rephrase_query g uq = (.ok rq, [.classifyCall]))
    (hsq : generate_sql g rq tn ts = (.ok sq, [.generateCall]))
    (hex : g.execute sq tn = .ok r)
    (hmr : 1 ≤ mr) :
    (Event.repairCall ∈ (process_query_for_selected_table g self uq mr).2 ↔
      sentinel.toList <:+: r.toList) := by
  rw [process_unfold g self uq mr tn ts hsel hsch, hrq]
  dsimp only
  rw [hsq]
  dsimp only
  obtain ⟨f, rfl⟩ : ∃ f, mr = f + 1 := ⟨mr - 1, by omega⟩
  rw [← strContains_iff]
  rw [← processLoop_repair_mem g tn ts uq rq sq sq (f + 1) f 0 sq [] r hex]
  rcases hloop : processLoop g tn ts uq rq sq sq (f + 1) (f + 1) 0 sq []
    with ⟨r3, evs3⟩
  cases r3 <;> simp

/-- When the retry loop raises, the outer handler returns the
`{user_query, error}` envelope; the trace is the classify and generate
calls followed by the loop's calls. -/
theorem process_of_loop_error (g : Gateways) (self : Session)
    (uq : String) (mr : Nat) (tn ts rq sq e : String)
    (hsel : self.selected_table = some tn)
    (hsch : self.table_schema = some ts)
    (hrq : rephrase_query g uq = (.ok rq, [.classifyCall]))
    (hsq : generate_sql g rq tn ts = (.ok sq, [.generateCall]))
    (hloop : (processLoop g tn ts uq rq sq sq mr mr 0 sq []).1 = .error e) :
    process_query_for_selected_table g self uq mr =
      (.env { user_query := some uq, error := some e },
       Event.classifyCall :: Event.generateCall ::
         (processLoop g tn ts uq rq sq sq mr mr 0 sq []).2) := by
  rw [process_unfold g self uq mr tn ts hsel hsch, hrq]
  dsimp only
  rw [hsq]
  dsimp only
  rcases hl : processLoop g tn ts uq rq sq sq mr mr 0 sq [] with ⟨r3, evs3⟩
  rw [hl] at hloop
  simp only at hloop
  subst hloop
  rfl

/-- When the retry loop returns a value, the orchestrator passes it
through; the trace is the classify and generate calls followed by the
loop's calls. -/
theorem process_of_loop_ok (g : Gateways) (self : Session)
    (uq : String) (mr : Nat) (tn ts rq sq : String) (r : PyResult)
    (hsel : self.selected_table = some tn)
    (hsch : self.table_schema = some ts)
    (hrq : rephrase_query g uq = (.ok rq, [.classifyCall]))
    (hsq : generate_sql g rq tn ts = (.ok sq, [.generateCall]))
    (hloop : (processLoop g tn ts uq rq sq sq mr mr 0 sq []).1 = .ok r) :
    process_query_for_selected_table g self uq mr =
      (r, Event.classifyCall :: Event.generateCall ::
         (processLoop g tn ts uq rq sq sq mr mr 0 sq []).2) := by
  rw [process_unfold g self uq mr tn ts hsel hsch, hrq]
  dsimp only
  rw [hsq]
  dsimp only
  rcases hl : processLoop g tn ts uq rq sq sq mr mr 0 sq [] with ⟨r3, evs3⟩
  rw [hl] at hloop
  simp only at hloop
  subst hloop
  rfl

/-- **C2 (counterexample).**  With `max_retries = 1` and a gateway
whose executions always fail with the sentinel, both of the
`max_retries + 1 = 2` executions fail, yet the returned envelope's
`error_messages` list has 1 entry — not `max_retries + 1 = 2` — because
the final execution's error text is never appended. -/
theorem process_all_failures_error_count_cex :
    (process_query_for_selected_table alwaysFailG fixedSession
        "total revenue" 1).1 =
      PyResult.env
        { user_query := some "total revenue",
          rephrased_query := some "q1", selected_table := some "orders",
          original_sql_query := some "SELECT 1",
          error_messages := some ["boom"],
          final_sql_query := some "SELECT 2",
          result := some failureResult } ∧
    execCount (process_query_for_selected_table alwaysFailG fixedSession
        "total revenue" 1).2 = 1 + 1 ∧
    (["boom"] : List String).length ≠ 1 + 1 :=
  ⟨rfl, rfl, by decide⟩

/-- **C2 (amended).**  If every one of the `max_retries + 1` executions
fails (each response carries the sentinel) and the repair calls return
normally, the final envelope's error-message list has exactly
`max_retries` entries — the final execution's error is not recorded —
and the envelope has no `summary`. -/
theorem process_all_failures_error_count (g : Gateways) (self : Session)
    (uq : String) (mr : Nat) (tn ts rq sq : String)
    (hsel : self.selected_table = some tn)
    (hsch : self.table_schema = some ts)
    (hrq : rephrase_query g uq = (.ok rq, [.classifyCall]))
    (hsq : generate_sql g rq tn ts = (.ok sq, [.generateCall]))
    (hexec : ∀ q t, ∃ r, g.execute q t = .ok r ∧
      strContains r sentinel = true)
    (hrep : ∀ a b c d e, ∃ f, g.repair a b c d e = .ok f)
    (hmr : 1 ≤ mr) :
    ∃ env l,
      (process_query_for_selected_table g self uq mr).1 = .env env ∧
      env.error_messages = some l ∧ l.length = mr ∧
      env.summary = none ∧ env.result = some failureResult ∧
      execCount (process_query_for_selected_table g self uq mr).2 = mr + 1 ∧
      repairCount (process_query_for_selected_table g self uq mr).2 = mr := by
  obtain ⟨env, l, h1, h2, h3, h4, h5, h6, h7⟩ :=
    processLoop_all_failures g tn ts uq rq sq sq mr hexec hrep mr 0 sq []
      (by omega) hmr
  have hp := process_of_loop_ok g self uq mr tn ts rq sq (.env env)
    hsel hsch hrq hsq h1
  refine ⟨env, l, ?_, h2, by simpa using h3, h4, h5, ?_, ?_⟩
  · rw [hp]
  · rw [hp]
    simp only [execCount, List.countP_cons] at h6 ⊢
    simp [isExecEvent]
    omega
  · rw [hp]
    simp only [repairCount, List.countP_cons] at h7 ⊢
    simp [isRepairEvent]
    omega

/-- Witness for the amended C2 at `max_retries = 2`. -/
theorem process_all_failures_error_count_witness :
    ∃ env l,
      (process_query_for_selected_table alwaysFailG fixedSession
          "total revenue" 2).1 = .env env ∧
      env.error_messages = some l ∧ l.length = 2 ∧
      env.summary = none ∧ env.result = some failureResult ∧
      execCount (process_query_for_selected_table alwaysFailG fixedSession
          "total revenue" 2).2 = 2 + 1 ∧
      repairCount (process_query_for_selected_table alwaysFailG fixedSession
          "total revenue" 2).2 = 2 :=
  process_all_failures_error_count alwaysFailG fixedSession "total revenue" 2
    "orders" "id Int32" "q1" "SELECT 1" rfl rfl rfl rfl
    (fun q t => ⟨"Error executing custom query: boom", rfl, by decide⟩)
    (fun a b c d e => ⟨"SELECT 2", rfl⟩)
    (by decide)

/-- **C5 (counterexample).**  Called with `max_retries = 0` and a
classification that passes, the function falls through the loop and
returns Python `None` — not an envelope — so a caller cannot read an
`error` field from the result. -/
theorem process_returns_none_cex :
    (process_query_for_selected_table okG fixedSession "show my orders" 0).1 =
      PyResult.pyNone ∧
    (process_query_for_selected_table okG fixedSession "show my orders" 0).1 ≠
      PyResult.env { user_query := some "show my orders",
                     error := some "x" } :=
  ⟨rfl, by decide⟩

/-- **C5 (amended).**  The orchestrator never raises: whenever a table
and schema are selected and `max_retries ≥ 1`, every gateway behaviour
(including raising gateways) yields an envelope, and every envelope
carrying an `error` field also carries the user query; when no table is
selected the envelope carries `error` but no `user_query`; only the
`max_retries = 0` fall-through returns `None` instead of an
envelope. -/
theorem process_structured_failure (g : Gateways) (self : Session)
    (uq : String) (mr : Nat) (hmr : 1 ≤ mr) :
    (∀ tn ts, self.selected_table = some tn → self.table_schema = some ts →
      ∃ env, (process_query_for_selected_table g self uq mr).1 = .env env ∧
        ∀ s, env.error = some s → env.user_query = some uq) ∧
    ((self.selected_table = none ∨ self.table_schema = none) →
      process_query_for_selected_table g self uq mr =
        (.env { error := some noTableError }, [])) := by
  constructor
  · intro tn ts hsel hsch
    have h1 := rephrase_query_events g uq
    rcases hrq : rephrase_query g uq with ⟨r1, evs1⟩
    rw [hrq] at h1; simp only at h1; subst h1
    cases r1 with
    | error e =>
      have hp : process_query_for_selected_table g self uq mr =
          (.env { user_query := some uq, error := some e },
           [Event.classifyCall]) := by
        rw [process_unfold g self uq mr tn ts hsel hsch, hrq]
      rw [hp]
      exact ⟨_, rfl, fun s _ => rfl⟩
    | ok rq =>
      have h2 := generate_sql_events g rq tn ts
      rcases hgen : generate_sql g rq tn ts with ⟨r2, evs2⟩
      rw [hgen] at h2; simp only at h2; subst h2
      cases r2 with
      | error e =>
        have hp : process_query_for_selected_table g self uq mr =
            (.env { user_query := some uq, error := some e },
             [Event.classifyCall] ++ [Event.generateCall]) := by
          rw [process_unfold g self uq mr tn ts hsel hsch, hrq]
          dsimp only
          rw [hgen]
        rw [hp]
        exact ⟨_, rfl, fun s _ => rfl⟩
      | ok sq =>
        rcases processLoop_no_none g tn ts uq rq sq sq mr mr 0 sq []
            (by omega) hmr with ⟨e, he⟩ | ⟨env, henv⟩
        · have hp := process_of_loop_error g self uq mr tn ts rq sq e
            hsel hsch hrq hgen he
          rw [hp]
          exact ⟨_, rfl, fun s _ => rfl⟩
        · have hp := process_of_loop_ok g self uq mr tn ts rq sq (.env env)
            hsel hsch hrq hgen henv
          rw [hp]
          refine ⟨env, rfl, fun s hs => ?_⟩
          have hn := processLoop_env_error_none g tn ts uq rq sq sq mr mr 0
            sq [] env henv
          rw [hn] at hs
          cases hs
  · intro h
    unfold process_query_for_selected_table
    rcases h with h | h
    · rw [h]
    · rw [h]
      cases hsel2 : self.selected_table <;> rfl

/-- Witness for the amended C5 at a concrete gateway and session. -/
theorem process_structured_failure_witness :
    (∀ tn ts, fixedSession.selected_table = some tn →
        fixedSession.table_schema = some ts →
      ∃ env, (process_query_for_selected_table okG fixedSession
          "show my orders" 3).1 = .env env ∧
        ∀ s, env.error = some s → env.user_query = some "show my orders") ∧
    ((fixedSession.selected_table = none ∨
        fixedSession.table_schema = none) →
      process_query_for_selected_table okG fixedSession "show my orders" 3 =
        (.env { error := some noTableError }, [])) :=
  process_structured_failure okG fixedSession "show my orders" 3 (by decide)

/-- Gateway behaviour whose execution succeeds but whose summarization
call raises. -/
def raisingSummG : Gateways :=
  { classify := fun _ => .ok { query_type := "valid", queries := ["q1"] },
    generate := fun _ _ _ => .ok "SELECT 1",
    repair := fun _ _ _ _ _ => .ok "SELECT 2",
    execute := fun _ _ => .ok "Query executed successfully: rows",
    summarize := fun _ _ => .error "APIError: rate limit" }

/-- **C6 (counterexample).**  When the summarization call raises after
a successful row-set execution, the returned envelope is the caught
`{user_query, error}` envelope with no `summary` key, although a
successful execution (response free of the sentinel) did occur. -/
theorem summary_missing_after_success_cex :
    (process_query_for_selected_table raisingSummG fixedSession
        "show my orders" 3).1 =
      PyResult.env { user_query := some "show my orders",
                     error := some "APIError: rate limit" } ∧
    Event.execCall (Except.ok "Query executed successfully: rows") ∈
      (process_query_for_selected_table raisingSummG fixedSession
        "show my orders" 3).2 ∧
    strContains "Query executed successfully: rows" sentinel = false ∧
    ({ user_query := some "show my orders",
       error := some "APIError: rate limit" } : Envelope).summary = none :=
  ⟨rfl, by decide, by decide, rfl⟩

/-- **C6 (amended).**  In every envelope the orchestrator returns: an
envelope with an `error` field never carries `summary`; and provided
the summarization gateway never raises, `summary` is present exactly
when some execution call in the trace returned a response free of the
sentinel. -/
theorem summary_presence (g : Gateways) (self : Session) (uq : String)
    (mr : Nat) (e : Envelope)
    (he : (process_query_for_selected_table g self uq mr).1 = .env e) :
    (e.error.isSome = true → e.summary = none) ∧
    ((∀ q r, ∃ s, g.summarize q r = .ok s) →
      (e.summary.isSome = true ↔
        ∃ r, Event.execCall (Except.ok r) ∈
            (process_query_for_selected_table g self uq mr).2 ∧
          strContains r sentinel = false)) := by
  cases hsel : self.selected_table with
  | none =>
    have hp : process_query_for_selected_table g self uq mr =
        (.env { error := some noTableError }, []) := by
      unfold process_query_for_selected_table
      rw [hsel]
    rw [hp] at he
    simp only [PyResult.env.injEq] at he
    subst he
    refine ⟨fun _ => rfl, fun _ => ?_⟩
    rw [hp]
    simp
  | some tn =>
    cases hsch : self.table_schema with
    | none =>
      have hp : process_query_for_selected_table g self uq mr =
          (.env { error := some noTableError }, []) := by
        unfold process_query_for_selected_table
        rw [hsel, hsch]
      rw [hp] at he
      simp only [PyResult.env.injEq] at he
      subst he
      refine ⟨fun _ => rfl, fun _ => ?_⟩
      rw [hp]
      simp
    | some ts =>
      have h1 := rephrase_query_events g uq
      rcases hrq : rephrase_query g uq with ⟨r1, evs1⟩
      rw [hrq] at h1; simp only at h1; subst h1
      cases r1 with
      | error err =>
        have hp : process_query_for_selected_table g self uq mr =
            (.env { user_query := some uq, error := some err },
             [Event.classifyCall]) := by
          rw [process_unfold g self uq mr tn ts hsel hsch, hrq]
        rw [hp] at he
        simp only [PyResult.env.injEq] at he
        subst he
        refine ⟨fun _ => rfl, fun _ => ?_⟩
        rw [hp]
        simp
      | ok rq =>
        have h2 := generate_sql_events g rq tn ts
        rcases hgen : generate_sql g rq tn ts with ⟨r2, evs2⟩
        rw [hgen] at h2; simp only at h2; subst h2
        cases r2 with
        | error err =>
          have hp : process_query_for_selected_table g self uq mr =
              (.env { user_query := some uq, error := some err },
               [Event.classifyCall] ++ [Event.generateCall]) := by
            rw [process_unfold g self uq mr tn ts hsel hsch, hrq]
            dsimp only
            rw [hgen]
          rw [hp] at he
          simp only [PyResult.env.injEq] at he
          subst he
          refine ⟨fun _ => rfl, fun _ => ?_⟩
          rw [hp]
          simp
        | ok sq =>
          cases hl : (processLoop g tn ts uq rq sq sq mr mr 0 sq []).1 with
          | error err =>
            have hp := process_of_loop_error g self uq mr tn ts rq sq err
              hsel hsch hrq hgen hl
            rw [hp] at he
            simp only [PyResult.env.injEq] at he
            subst he
            refine ⟨fun _ => rfl, fun hsum => ?_⟩
            have hiff := processLoop_summary_iff g tn ts uq rq sq sq mr hsum
              mr 0 sq []
            rw [hp]
            simp only [Option.isSome_none, Bool.false_eq_true, false_iff]
            rintro ⟨r, hm, hns⟩
            simp only [List.mem_cons] at hm
            rcases hm with hm | hm | hm
            · cases hm
            · cases hm
            · obtain ⟨env, henv, _⟩ := hiff.mpr ⟨r, hm, hns⟩
              rw [hl] at henv
              cases henv
          | ok r3 =>
            cases r3 with
            | pyNone =>
              have hp := process_of_loop_ok g self uq mr tn ts rq sq .pyNone
                hsel hsch hrq hgen hl
              rw [hp] at he
              cases he
            | env env' =>
              have hp := process_of_loop_ok g self uq mr tn ts rq sq
                (.env env') hsel hsch hrq hgen hl
              rw [hp] at he
              simp only [PyResult.env.injEq] at he
              subst he
              have hn := processLoop_env_error_none g tn ts uq rq sq sq mr
                mr 0 sq [] env' hl
              refine ⟨fun hcontra => ?_, fun hsum => ?_⟩
              · rw [hn] at hcontra
                cases hcontra
              · have hiff := processLoop_summary_iff g tn ts uq rq sq sq mr
                  hsum mr 0 sq []
                rw [hp]
                constructor
                · intro hsome
                  obtain ⟨r, hm, hns⟩ := hiff.mp ⟨env', hl, hsome⟩
                  exact ⟨r, by simp [hm], hns⟩
                · rintro ⟨r, hm, hns⟩
                  simp only [List.mem_cons] at hm
                  rcases hm with hm | hm | hm
                  · cases hm
                  · cases hm
                  · obtain ⟨env2, henv2, hsome2⟩ := hiff.mpr ⟨r, hm, hns⟩
                    rw [hl] at henv2
                    simp only [Except.ok.injEq, PyResult.env.injEq] at henv2
                    rw [henv2]
                    exact hsome2

/-- The envelope `okG` produces on a selected session. -/
def okEnvelope : Envelope :=
  { user_query := some "show my orders",
    rephrased_query := some "show my orders",
    selected_table := some "orders", sql_query := some "SELECT 42",
    result := some "Query executed successfully: rows",
    summary := some "the summary" }

/-- Witness for the amended C6 at a concrete succeeding invocation. -/
theorem summary_presence_witness :
    (okEnvelope.error.isSome = true → okEnvelope.summary = none) ∧
    ((∀ q r, ∃ s, okG.summarize q r = .ok s) →
      (okEnvelope.summary.isSome = true ↔
        ∃ r, Event.execCall (Except.ok r) ∈
            (process_query_for_selected_table okG fixedSession
              "show my orders" 3).2 ∧
          strContains r sentinel = false)) :=
  summary_presence okG fixedSession "show my orders" 3 okEnvelope rfl

/-- Gateway behaviour whose first execution response carries both a
row-set portion and the sentinel phrase. -/
def mixedG : Gateways :=
  { classify := fun _ => .ok { query_type := "valid", queries := ["q1"] },
    generate := fun _ _ _ => .ok "SELECT 1",
    repair := fun _ _ _ _ _ => .ok "SELECT 2",
    execute := fun q _ =>
      if q = "SELECT 1" then
        .ok "Query executed successfully: rows ... Error executing custom query: partial"
      else
        .ok "Query executed successfully: rows",
    summarize := fun _ _ => .ok "s" }

/-- Witness for C4: a response that contains a row-set portion together
with the sentinel is treated as a failure and drives a repair call. -/
theorem repair_iff_sentinel_witness :
    Event.repairCall ∈
      (process_query_for_selected_table mixedG fixedSession
        "show my orders" 3).2 :=
  (repair_iff_sentinel mixedG fixedSession "show my orders" 3 "orders"
      "id Int32" "q1" "SELECT 1"
      "Query executed successfully: rows ... Error executing custom query: partial"
      rfl rfl rfl rfl rfl (by decide)).mpr
    ((strContains_iff
      "Query executed successfully: rows ... Error executing custom query: partial"
      sentinel).mp rfl)

/-- `DESCRIBE TABLE` behaviour of a database that raises because the
table does not exist. -/
def ghostDescribe : String → Except String (List (String × String)) :=
  fun _ => .error "Code: 60. DB::Exception: Table default.ghost does not exist"

/-- `DESCRIBE TABLE` behaviour returning an empty result set (a table
with no columns). -/
def emptyDescribe : String → Except String (List (String × String)) :=
  fun _ => .ok []

/-- A session with nothing selected yet. -/
def emptySession : Session := { selected_table := none, table_schema := none }

/-- **C7.**  `select_table` does not fail on a nonexistent or
column-less table: the server converts both conditions into non-empty
error text, the client returns that text, the endpoint's falsy check
passes, and the call returns the success body while storing the error
text as the session's schema.  The intended `NotFound` failure (the 404
branch, itself swallowed into a 500 by the surrounding handler) is
unreachable for these inputs. -/
theorem select_table_notfound_succeeds :
    (select_table ghostDescribe emptySession "ghost").1 =
      .ok { message := "Table 'ghost' selected successfully.",
            schema := "Error retrieving schema for table ghost: Code: 60. DB::Exception: Table default.ghost does not exist" } ∧
    (select_table ghostDescribe emptySession "ghost").2 =
      { selected_table := some "ghost",
        table_schema := some "Error retrieving schema for table ghost: Code: 60. DB::Exception: Table default.ghost does not exist" } ∧
    (select_table emptyDescribe emptySession "nocols").1 =
      .ok { message := "Table 'nocols' selected successfully.",
            schema := "Table nocols not found or has no columns." } ∧
    (select_table emptyDescribe emptySession "nocols").2.selected_table =
      some "nocols" :=
  ⟨rfl, rfl, rfl, rfl⟩
